import Mathlib

/-!
A shallow embedding of the product-catalog browser and proofs of its
specified behaviour.

The embedded code:
* the Catalog Store of `src/data/products.js` (reproduced verbatim in the
  repository README), a fixed list of four product records;
* the Filter View of `ProductList.jsx` — the repository carries two
  revisions of this component; the later one (the one the specification
  describes: dropdown with `value={category}`, `key={product.id || index}`,
  and the "No products found in this category." empty-state paragraph) is
  embedded here;
* the Card View of `ProductCard.jsx`.

Rendering is modelled by the data each JSX expression produces: a card is a
record of the strings placed in its markup, the grid is the list of children
of the grid `<div>`, and the component state is the `useState` cell together
with the store the component reads.
-/

namespace Catalog

/-- A catalog record, as authored in `src/data/products.js`: display name,
category label, numeric price, image URL, and an optional stable identifier
(no record in the shipped data carries one). -/
structure Product where
  name : String
  category : String
  price : Nat
  image : String
  id : Option Nat := none
deriving DecidableEq, Repr, Inhabited

/-- The Catalog Store: the fixed, ordered list of `src/data/products.js`. -/
def products : List Product := [
  { name := "Laptop", category := "Electronics", price := 55000,
    image := "https://images.unsplash.com/photo-1525547719571-a2d4ac8945e2?w=600&auto=format&fit=crop&q=60&ixlib=rb-4.1.0&ixid=M3wxMjA3fDB8MHxzZWFyY2h8NHx8bGFwdG9wfGVufDB8fDB8fHww" },
  { name := "Shirt", category := "Clothing", price := 999,
    image := "https://images.unsplash.com/photo-1620012253295-c15cc3e65df4?w=600&auto=format&fit=crop&q=60&ixlib=rb-4.1.0&ixid=M3wxMjA3fDB8MHxzZWFyY2h8MjR8fHNoaXJ0fGVufDB8fDB8fHww" },
  { name := "Rice Bag", category := "Grocery", price := 799,
    image := "https://images.unsplash.com/photo-1625827626291-6fbd47a431ae?w=600&auto=format&fit=crop&q=60&ixlib=rb-4.1.0&ixid=M3wxMjA3fDB8MHxzZWFyY2h8N3x8cmljZSUyMGJhZ3xlbnwwfHwwfHx8MA%3D%3D" },
  { name := "Cricket Kit", category := "Sports", price := 15999,
    image := "https://plus.unsplash.com/premium_photo-1722351690086-b42310f14c14?w=600&auto=format&fit=crop&q=60&ixlib=rb-4.1.0&ixid=M3wxMjA3fDB8MHxzZWFyY2h8MXx8Y3JpY2tldCUyMGtpdHxlbnwwfHwwfHx8MA%3D%3D" }
]

/-- The category filter of `ProductList.jsx`, abstracted over the list it is
applied to: `category === "All" ? records : records.filter(product =>
product.category === category)`. -/
def filterStep (category : String) (records : List Product) : List Product :=
  if category = "All" then records
  else records.filter fun product => product.category = category

/-- The `filteredProducts` value computed in `ProductList.jsx`, over the
module-level Catalog Store the component imports. -/
def filteredProducts (category : String) : List Product :=
  filterStep category products

/-- The static markup produced by `ProductCard.jsx` for one product: the
image source and alt text, the `h3` heading, the price paragraph, and the
button with its label and (absent) click handler. -/
structure CardHtml where
  imgSrc : String
  imgAlt : String
  title : String
  priceLine : String
  buttonLabel : String
  buttonOnClick : Option String
deriving DecidableEq, Repr

/-- Embedding of `ProductCard.jsx`: `<img src={product.image}
alt={product.name}/>`, `<h3>{product.name}</h3>`, `<p>Rs. {product.price}</p>`
and `<button>Buy Now</button>` with no handler attached. -/
def ProductCard (product : Product) : CardHtml :=
  { imgSrc := product.image
    imgAlt := product.name
    title := product.name
    priceLine := "Rs. " ++ toString product.price
    buttonLabel := "Buy Now"
    buttonOnClick := none }

/-- The React key `key={product.id || index}` of `ProductList.jsx`: the JS
`||` falls through to `index` when `product.id` is falsy, i.e. both when the
id is absent (`undefined`) and when it is the number `0`. -/
def keyOf (product : Product) (index : Nat) : Nat :=
  match product.id with
  | some i => if i = 0 then index else i
  | none => index

/-- One child of the grid `<div>`: a keyed product card, or the empty-state
paragraph. -/
inductive GridChild where
  | keyedCard (key : Nat) (card : CardHtml)
  | notice (text : String)
deriving DecidableEq, Repr

/-- The text of the empty-state paragraph in `ProductList.jsx`. -/
def noProductsMessage : String := "No products found in this category."

/-- The card row of the grid: `filteredProducts.map((product, index) =>
<ProductCard key={product.id || index} product={product} index={index} />)`. -/
def renderCards (fp : List Product) : List GridChild :=
  fp.mapIdx fun index product => GridChild.keyedCard (keyOf product index) (ProductCard product)

/-- The children of the grid `<div>` rendered by `ProductList.jsx` for a given
selection: the mapped cards, followed by the empty-state paragraph exactly
when `filteredProducts.length === 0`. -/
def ProductList (category : String) : List GridChild :=
  renderCards (filteredProducts category) ++
    (if (filteredProducts category).length = 0 then [GridChild.notice noProductsMessage] else [])

/-- The Filter View state: the Catalog Store the component reads and the
selected category held in its `useState` cell. -/
structure FilterView where
  store : List Product
  category : String
deriving DecidableEq, Repr

/-- The view produced by initialization: bound to the Catalog Store, with the
selection set by `useState("All")`. -/
def initialView : FilterView := { store := products, category := "All" }

/-- The selection update `onChange={(e) => setCategory(e.target.value)}`: the
held selection is replaced wholesale by the incoming label; nothing else in
the state is touched. -/
def SelectCategory (st : FilterView) (label : String) : FilterView :=
  { st with category := label }

/-- The keying rule in the words of the specification — "keyed by the
element's `id` when present, else by its ordinal position" — for comparison
with the code's `product.id || index`. -/
def specKeyOf (product : Product) (index : Nat) : Nat :=
  product.id.getD index

/-- Rendering the card row with the specification-worded keying rule, for
comparison with `renderCards`. -/
def renderCardsSpec (fp : List Product) : List GridChild :=
  fp.mapIdx fun index product => GridChild.keyedCard (specKeyOf product index) (ProductCard product)

/-- A product whose `id` field is present but equal to `0` (a falsy value in
JS). -/
def zeroIdProduct : Product :=
  { name := "Gadget", category := "Electronics", price := 10, image := "gadget.png", id := some 0 }

/-- A companion product occupying index 0 of a two-element sequence. -/
def firstProduct : Product :=
  { name := "Widget", category := "Electronics", price := 20, image := "widget.png" }

/-- Filtering a list twice with the same predicate is the same as filtering it
once. -/
lemma filter_self_idem {α : Type} (p : α → Bool) (l : List α) :
    (l.filter p).filter p = l.filter p := by
  induction l with
  | nil => rfl
  | cons a t ih =>
    by_cases h : p a <;> simp [List.filter_cons, h, ih]

/-- Selection updates never touch the `store` component of the view state. -/
lemma store_foldl (evs : List String) (st : FilterView) :
    (evs.foldl SelectCategory st).store = st.store := by
  induction evs generalizing st with
  | nil => rfl
  | cons e rest ih =>
    rw [List.foldl_cons, ih (SelectCategory st e)]
    rfl

/-- C1: for every selection `s`, the filtered sequence computed by
`filteredProducts` has length equal to the full Catalog Store length when `s`
is `"All"`, and otherwise equal to the number of Catalog Store records whose
`category` field equals `s`. -/
theorem filteredProducts_length (s : String) :
    (filteredProducts s).length =
      if s = "All" then products.length
      else products.countP fun p => p.category = s := by
  by_cases h : s = "All" <;>
    simp [filteredProducts, filterStep, h, List.countP_eq_length_filter]

/-- C2: for every selection, the filtered sequence is an ordered subsequence
(`List.Sublist`) of the Catalog Store: surviving records keep their original
relative order, with no resorting. -/
theorem filteredProducts_sublist (s : String) :
    (filteredProducts s).Sublist products := by
  by_cases h : s = "All"
  · simp [filteredProducts, filterStep, h]
  · simp only [filteredProducts, filterStep, if_neg h]
    exact List.filter_sublist products

/-- C6: the selection is `"All"` at initialization and again right after any
`SelectCategory "All"`, and whenever a view reached from the initial view by
any sequence of selections holds the selection `"All"`, its filtered sequence
is the full Catalog Store in its original order. -/
theorem all_selection_identity :
    initialView.category = "All" ∧
    (∀ st : FilterView, (SelectCategory st "All").category = "All") ∧
    (∀ evs : List String,
      (evs.foldl SelectCategory initialView).category = "All" →
      filterStep (evs.foldl SelectCategory initialView).category
        (evs.foldl SelectCategory initialView).store = products) := by
  refine ⟨rfl, fun st => rfl, fun evs h => ?_⟩
  rw [h, store_foldl]
  simp [filterStep, initialView]

/-- Witness for C6 at the concrete trace `["Electronics", "All"]`. -/
theorem all_selection_identity_witness :
    filterStep ((["Electronics", "All"].foldl SelectCategory initialView)).category
      ((["Electronics", "All"].foldl SelectCategory initialView)).store = products :=
  all_selection_identity.2.2 ["Electronics", "All"] rfl

/-- C7: filtering is idempotent: applying the category filter for `s` to the
sequence already filtered by `s` yields the identical sequence. -/
theorem filter_idempotent (s : String) :
    filterStep s (filteredProducts s) = filteredProducts s := by
  by_cases h : s = "All"
  · simp [filterStep, h]
  · simp [filteredProducts, filterStep, h, filter_self_idem]

/-- C9: the Catalog Store is never mutated: a selection update returns a state
with the very same `store`, and after any sequence of selection events from
the initial view the store is still the original `products` list (the filter
and the renderer are pure functions of it and return fresh lists). -/
theorem catalogStore_immutable :
    (∀ (st : FilterView) (label : String), (SelectCategory st label).store = st.store) ∧
    (∀ evs : List String, (evs.foldl SelectCategory initialView).store = products) := by
  refine ⟨fun st label => rfl, fun evs => ?_⟩
  rw [store_foldl]
  rfl

/-- C3: whenever the filtered sequence is empty, the rendered grid consists of
exactly the single empty-state notice (and zero cards); and for no selection
is the grid rendered empty and silent. -/
theorem emptyState_notice (s : String) :
    (filteredProducts s = [] → ProductList s = [GridChild.notice noProductsMessage]) ∧
    ProductList s ≠ [] := by
  constructor
  · intro h
    simp [ProductList, h, renderCards]
  · intro hnil
    by_cases h : filteredProducts s = []
    · simp [ProductList, h, renderCards] at hnil
    · have hlen : (filteredProducts s).length ≠ 0 := by
        simpa [List.length_eq_zero] using h
      rw [ProductList, if_neg hlen, List.append_nil] at hnil
      exact (List.mapIdx_ne_nil_iff.mpr h) hnil

/-- Witness for C3 at the unmatched selection `"Home"`. -/
theorem emptyState_notice_witness :
    ProductList "Home" = [GridChild.notice noProductsMessage] ∧ ProductList "Home" ≠ [] :=
  ⟨(emptyState_notice "Home").1 (by decide), (emptyState_notice "Home").2⟩

/-- C4 counterexample: rendering the two-element sequence
`[firstProduct, zeroIdProduct]` does not key each card by the element's `id`
whenever the id is present: `zeroIdProduct` carries `id = some 0`
(`specKeyOf` would key it `0`) but `key={product.id || index}` keys it by its
ordinal position `1`, because `0` is falsy in JS. -/
theorem key_rule_counterexample :
    renderCards [firstProduct, zeroIdProduct] ≠ renderCardsSpec [firstProduct, zeroIdProduct] ∧
    keyOf zeroIdProduct 1 = 1 ∧ specKeyOf zeroIdProduct 1 = 0 := by
  refine ⟨?_, rfl, rfl⟩
  decide

/-- C4 (amended): the render step produces exactly one card per element of the
filtered sequence, in order; the card at position `i` carries the card markup
of element `i` and is keyed by that element's `id` when the id is present and
nonzero (truthy), and by the ordinal position `i` otherwise (absent id, or the
falsy id `0`). -/
theorem renderCards_one_card_per_element (fp : List Product) :
    (renderCards fp).length = fp.length ∧
    ∀ i, i < fp.length →
      (renderCards fp).getD i (GridChild.notice noProductsMessage) =
        GridChild.keyedCard
          (match (fp.getD i default).id with
           | some k => if k = 0 then i else k
           | none => i)
          (ProductCard (fp.getD i default)) := by
  refine ⟨by simp [renderCards], fun i h => ?_⟩
  have hr : i < (renderCards fp).length := by simpa [renderCards] using h
  rw [List.getD_eq_getElem _ _ hr, List.getD_eq_getElem _ _ h]
  simp [renderCards, List.getElem_mapIdx, keyOf]

/-- Witness for C4 (amended) at the concrete sequence
`[firstProduct, zeroIdProduct]` and index `1`. -/
theorem renderCards_one_card_per_element_witness :
    (renderCards [firstProduct, zeroIdProduct]).length = 2 ∧
    (renderCards [firstProduct, zeroIdProduct]).getD 1 (GridChild.notice noProductsMessage) =
      GridChild.keyedCard 1 (ProductCard zeroIdProduct) := by
  have h := renderCards_one_card_per_element [firstProduct, zeroIdProduct]
  exact ⟨h.1, by simpa [zeroIdProduct] using h.2 1 (by decide)⟩

/-- C5: `SelectCategory` performs no validation: any incoming label, matched
or not, replaces the held selection wholesale; and a label other than `"All"`
matching no record of the Catalog Store filters to the empty sequence rather
than raising an error. -/
theorem selectCategory_no_validation (st : FilterView) (label : String) :
    (SelectCategory st label).category = label ∧
    (label ≠ "All" → (∀ p ∈ products, p.category ≠ label) → filteredProducts label = []) := by
  refine ⟨rfl, fun hA hm => ?_⟩
  rw [filteredProducts, filterStep, if_neg hA]
  exact List.filter_eq_nil_iff.mpr fun p hp => by simpa using hm p hp

/-- Witness for C5 at the unmatched label `"Home"` (the scenario
`SelectCategory("Home")` of the specification). -/
theorem selectCategory_no_validation_witness :
    (SelectCategory initialView "Home").category = "Home" ∧ filteredProducts "Home" = [] :=
  ⟨(selectCategory_no_validation initialView "Home").1,
   (selectCategory_no_validation initialView "Home").2 (by decide) (by decide)⟩

/-- C8: for every product record, the card is exactly the static unit made of
the image with `src` the product image and fallback alt text equal to the
product name, the name heading, the price with the fixed `"Rs. "` currency
prefix, and the inert `"Buy Now"` control with no handler attached; being a
`def`, `ProductCard` is a pure function of this one record. -/
theorem productCard_contents (product : Product) :
    ProductCard product =
      { imgSrc := product.image
        imgAlt := product.name
        title := product.name
        priceLine := "Rs. " ++ toString product.price
        buttonLabel := "Buy Now"
        buttonOnClick := none } := rfl

/-- C10: the card depends only on the `name`, `price` and `image` fields: two
records agreeing on those three produce identical cards, whatever their
`category`, `id` or anything else. -/
theorem productCard_noninterference (p q : Product)
    (hn : p.name = q.name) (hp : p.price = q.price) (hi : p.image = q.image) :
    ProductCard p = ProductCard q := by
  simp [ProductCard, hn, hp, hi]

/-- Witness for C10: two records sharing name, price and image but differing
in `category` and `id` render to the same card. -/
theorem productCard_noninterference_witness :
    ProductCard { name := "Laptop", category := "Electronics", price := 55000, image := "a.png" } =
      ProductCard { name := "Laptop", category := "Clothing", price := 55000, image := "a.png",
                    id := some 9 } :=
  productCard_noninterference _ _ rfl rfl rfl

end Catalog
